import Mathlib

/-!
Verification of the cloud-watch WebRTC signaling relay.

The repository has two deployment variants of the same Deno server:
`src/main.ts` (token-gated, with role tracking and viewer-count broadcast)
and a minimal variant (no auth, no roles) whose file name is unknown.
Both keep a `Map<string, WebSocket>` of live channels; `main.ts` keeps a
second `Map<string, 'camera' | 'viewer'>` of roles.  We embed the message
handler (`socket.onmessage`), the close handler (`socket.onclose`), the
viewer-count broadcast (`broadcastViewerCount`) and the token gate
(`validateToken` plus the `/ws` branch of the `Deno.serve` handler).

Modelling decisions (shallow embedding of the JavaScript semantics):
  * client identifiers are `Nat` (fresh UUIDs in the source);
  * a JS `Map` is an association list in insertion order: `set` updates in
    place or appends, `delete` filters the key out, `forEach` iterates in
    list order — the order `Map` iteration guarantees;
  * `JSON.parse(event.data)` either throws (modelled `none`) or yields a
    JSON value; accessing a property of `null` throws a TypeError, which the
    handler-level try/catch turns into a silent drop, so `some Json.null`
    is dropped like a parse failure;
  * JS truthiness of a possibly-absent field is `truthy`;
  * a channel carries its transport state (`isOpen`, i.e.
    `readyState === WebSocket.OPEN`) and whether a `send` call on it throws
    (`failSend`), so that exception propagation out of the relay loop can be
    modelled: an exception thrown inside `Map.forEach` aborts the iteration
    and propagates to the enclosing try/catch;
  * every `send` invocation is recorded as a `Sent` event, relays carrying
    the raw payload string that is forwarded verbatim.
-/

namespace CloudWatch

abbrev ClientId := Nat

/-- A JSON value produced by a successful `JSON.parse`. -/
inductive Json where
  | null
  | bool (b : Bool)
  | num (n : Int)
  | str (s : String)
  | arr (elems : List Json)
  | obj (fields : List (String × Json))

/-- Property access `m[k]` on a parsed value: `none` models `undefined`.
Property access on `Json.null` throws and is handled separately. -/
def getField : Json → String → Option Json
  | Json.obj fields, k => (fields.find? (fun p => p.1 == k)).map (fun p => p.2)
  | _, _ => none

/-- JS truthiness of a possibly-undefined value, as tested by `!message.type`,
`!message.offer`, `!message.answer`. -/
def truthy : Option Json → Bool
  | none => false
  | some Json.null => false
  | some (Json.bool b) => b
  | some (Json.num n) => n != 0
  | some (Json.str s) => s != ""
  | some (Json.arr _) => true
  | some (Json.obj _) => true

/-- Strict equality `v === 'lit'` of a possibly-undefined value with a string
literal. -/
def isStr (j : Option Json) (s : String) : Bool :=
  match j with
  | some (Json.str t) => t == s
  | _ => false

inductive Role where
  | camera
  | viewer
deriving DecidableEq

/-- The observable state of one registered WebSocket: whether
`readyState === WebSocket.OPEN`, and whether a `send` call on it throws. -/
structure Channel where
  isOpen : Bool
  failSend : Bool
deriving DecidableEq

/-- JS `Map.get`. -/
def mapGet {β : Type} (m : List (ClientId × β)) (k : ClientId) : Option β :=
  (m.find? (fun p => p.1 == k)).map (fun p => p.2)

/-- JS `Map.set`: update in place if the key is present (insertion order is
kept), otherwise append. -/
def mapSet {β : Type} : List (ClientId × β) → ClientId → β → List (ClientId × β)
  | [], k, v => [(k, v)]
  | (a, b) :: rest, k, v =>
    if a == k then (a, v) :: rest else (a, b) :: mapSet rest k v

/-- JS `Map.delete`: removes the key; deleting an absent key is a no-op. -/
def mapDelete {β : Type} (m : List (ClientId × β)) (k : ClientId) : List (ClientId × β) :=
  m.filter (fun p => p.1 != k)

/-- Shared state of the `main.ts` variant: the `clients` registry and the
`clientRoles` table. -/
structure ServerState where
  clients : List (ClientId × Channel)
  clientRoles : List (ClientId × Role)
deriving DecidableEq

/-- One `send` invocation observed on a channel: either the verbatim relay of
a raw inbound payload, or a `type: "viewer-count", count: n` notification. -/
inductive Sent where
  | relay (dst : ClientId) (payload : String)
  | viewerCount (dst : ClientId) (count : Nat)
deriving DecidableEq

def Sent.isRelay : Sent → Bool
  | Sent.relay _ _ => true
  | Sent.viewerCount _ _ => true && false

/-- The relay loop of `socket.onmessage` (identical in both variants):
`clients.forEach((client, id) => { if (id !== clientId && client.readyState
=== WebSocket.OPEN) client.send(event.data); })`.  Returns the `send`
invocations in iteration order and whether a send threw, which aborts the
`forEach` and propagates to the enclosing try/catch. -/
def relayLoop : List (ClientId × Channel) → ClientId → String → List Sent × Bool
  | [], _, _ => ([], false)
  | (id, c) :: rest, sender, raw =>
    if id != sender && c.isOpen then
      if c.failSend then
        ([Sent.relay id raw], true)
      else
        let r := relayLoop rest sender raw
        (Sent.relay id raw :: r.1, r.2)
    else
      relayLoop rest sender raw

/-- Number of role-table entries classified as viewer, as counted by the
`clientRoles.forEach` loop in `broadcastViewerCount`. -/
def viewerTally (roles : List (ClientId × Role)) : Nat :=
  (roles.filter (fun p => p.2 == Role.viewer)).length

/-- The send loop of `broadcastViewerCount`: sends the count message to every
client whose role is camera and whose transport is open; a throwing send
aborts the `forEach`. -/
def bvcLoop : List (ClientId × Channel) → List (ClientId × Role) → Nat → List Sent × Bool
  | [], _, _ => ([], false)
  | (id, c) :: rest, roles, n =>
    if mapGet roles id == some Role.camera && c.isOpen then
      if c.failSend then
        ([Sent.viewerCount id n], true)
      else
        let r := bvcLoop rest roles n
        (Sent.viewerCount id n :: r.1, r.2)
    else
      bvcLoop rest roles n

/-- `broadcastViewerCount` of `main.ts`: recompute the viewer tally from the
role table, then push it to the open camera channels. -/
def broadcastViewerCount (clients : List (ClientId × Channel))
    (roles : List (ClientId × Role)) : List Sent × Bool :=
  bvcLoop clients roles (viewerTally roles)

/-- The role-tracking block of `socket.onmessage` in `main.ts`: an `answer`
sets the sender's role to camera, an `offer` to viewer, anything else leaves
the table alone.  It runs before the offer/answer field validation. -/
def classify (roles : List (ClientId × Role)) (sender : ClientId) (m : Json) :
    List (ClientId × Role) :=
  if isStr (getField m "type") "answer" then mapSet roles sender Role.camera
  else if isStr (getField m "type") "offer" then mapSet roles sender Role.viewer
  else roles

/-- `socket.onmessage` of `main.ts`.  `parsed = none` models a throwing
`JSON.parse`; `raw` is `event.data`, the payload relayed verbatim.  The whole
body is inside one try/catch, so the handler itself never throws: a send
exception aborts the relay `forEach` (skipping the remaining recipients and
the viewer-count broadcast) and is then swallowed. -/
def onmessage (s : ServerState) (sender : ClientId) (parsed : Option Json)
    (raw : String) : ServerState × List Sent :=
  match parsed with
  | none => (s, [])
  | some Json.null => (s, [])
  | some m =>
    if !(truthy (getField m "type")) then (s, [])
    else
      let roles := classify s.clientRoles sender m
      let s1 : ServerState := ⟨s.clients, roles⟩
      if isStr (getField m "type") "offer" && !(truthy (getField m "offer")) then
        (s1, [])
      else if isStr (getField m "type") "answer" && !(truthy (getField m "answer")) then
        (s1, [])
      else
        let rel := relayLoop s.clients sender raw
        if rel.2 then (s1, rel.1)
        else (s1, rel.1 ++ (broadcastViewerCount s.clients roles).1)

/-- `socket.onclose` of `main.ts`: delete the id from both tables, then
broadcast the recomputed viewer count.  The close handler has no try/catch,
so the returned flag records whether a broadcast send threw. -/
def onclose (s : ServerState) (id : ClientId) : ServerState × List Sent × Bool :=
  let clients := mapDelete s.clients id
  let roles := mapDelete s.clientRoles id
  let b := broadcastViewerCount clients roles
  (⟨clients, roles⟩, b.1, b.2)

/-- `socket.onmessage` of the minimal variant: identical parse, type check and
offer/answer validation, identical relay loop, but no role table and no
viewer-count broadcast. -/
def onmessageMin (clients : List (ClientId × Channel)) (sender : ClientId)
    (parsed : Option Json) (raw : String) : List (ClientId × Channel) × List Sent :=
  match parsed with
  | none => (clients, [])
  | some Json.null => (clients, [])
  | some m =>
    if !(truthy (getField m "type")) then (clients, [])
    else if isStr (getField m "type") "offer" && !(truthy (getField m "offer")) then
      (clients, [])
    else if isStr (getField m "type") "answer" && !(truthy (getField m "answer")) then
      (clients, [])
    else
      (clients, (relayLoop clients sender raw).1)

/-- The validator of `main.ts` as a predicate: a parsed payload passes iff it
survives every early-return in `socket.onmessage` before the relay.  Derived
from the same checks the handler performs, for use in claim statements. -/
def accepts (parsed : Option Json) : Bool :=
  match parsed with
  | none => false
  | some Json.null => false
  | some m =>
    if !(truthy (getField m "type")) then false
    else if isStr (getField m "type") "offer" && !(truthy (getField m "offer")) then false
    else if isStr (getField m "type") "answer" && !(truthy (getField m "answer")) then false
    else true

/-- `validateToken`: the `token` query parameter (possibly absent, i.e.
`null`) must be strictly equal to the configured `ACCESS_TOKEN`. -/
def validateToken (token : Option String) (secret : String) : Bool :=
  match token with
  | some t => t == secret
  | none => false

/-- Outcome of the `/ws` branch of the `Deno.serve` handler. -/
inductive WsResult where
  | rejected (status : Nat) (body : String)
  | upgraded
deriving DecidableEq

/-- Body of the 401 response, `JSON.stringify` of the error object. -/
def unauthorizedBody : String :=
  "\x7b\"error\":\"Unauthorized - Invalid or missing token\"\x7d"

/-- The `/ws` upgrade branch of `main.ts`: on token mismatch respond 401 with
the JSON error body and leave the registry and role table untouched (no
upgrade happens, so `socket.onopen` never registers an id). -/
def handleWsUpgrade (secret : String) (token : Option String) (s : ServerState) :
    WsResult × ServerState :=
  if !(validateToken token secret) then
    (WsResult.rejected 401 unauthorizedBody, s)
  else
    (WsResult.upgraded, s)

/-- Relay sends an accepted message from `sender` produces when no send
throws: one verbatim copy of `raw` to every other registered open channel, in
registry order. -/
def relayTargets (clients : List (ClientId × Channel)) (sender : ClientId)
    (raw : String) : List Sent :=
  clients.filterMap (fun p =>
    if p.1 != sender && p.2.isOpen then some (Sent.relay p.1 raw) else none)

/-- Viewer-count sends a broadcast produces when no send throws: the tally to
every registered open camera channel, in registry order. -/
def cameraTargets (clients : List (ClientId × Channel))
    (roles : List (ClientId × Role)) (n : Nat) : List Sent :=
  clients.filterMap (fun p =>
    if (mapGet roles p.1 == some Role.camera) && p.2.isOpen then
      some (Sent.viewerCount p.1 n)
    else none)

end CloudWatch

namespace CloudWatch

theorem mapGet_mapSet_self {β : Type} (m : List (ClientId × β)) (k : ClientId) (v : β) :
    mapGet (mapSet m k v) k = some v := by
  induction m with
  | nil => simp [mapSet, mapGet]
  | cons p rest ih =>
    obtain ⟨a, b⟩ := p
    by_cases h : a = k
    · subst h
      simp [mapSet, mapGet]
    · have hb : (a == k) = false := by simp [h]
      simp only [mapSet, hb, Bool.false_eq_true, if_false]
      simpa [mapGet, List.find?, hb] using ih

theorem relayLoop_noFail (clients : List (ClientId × Channel)) (sender : ClientId)
    (raw : String) (h : ∀ p ∈ clients, p.2.failSend = false) :
    relayLoop clients sender raw = (relayTargets clients sender raw, false) := by
  induction clients with
  | nil => rfl
  | cons p rest ih =>
    obtain ⟨id, c⟩ := p
    have hc : c.failSend = false := h (id, c) (by simp)
    have hr := ih (fun q hq => h q (by simp [hq]))
    by_cases hid : id = sender
    · subst hid
      simp [relayLoop, relayTargets, List.filterMap_cons, hr]
    · by_cases hop : c.isOpen = true
      · simp [relayLoop, relayTargets, List.filterMap_cons, hid, hop, hc, hr]
      · rw [Bool.not_eq_true] at hop
        simp [relayLoop, relayTargets, List.filterMap_cons, hid, hop, hr]

theorem relayLoop_sends_relays (clients : List (ClientId × Channel)) (sender : ClientId)
    (raw : String) :
    ((relayLoop clients sender raw).1).filter Sent.isRelay = (relayLoop clients sender raw).1 := by
  induction clients with
  | nil => rfl
  | cons p rest ih =>
    obtain ⟨id, c⟩ := p
    by_cases hcond : (id != sender && c.isOpen) = true
    · by_cases hf : c.failSend = true
      · simp [relayLoop, hcond, hf, Sent.isRelay]
      · rw [Bool.not_eq_true] at hf
        simp [relayLoop, hcond, hf, Sent.isRelay, ih]
    · rw [Bool.not_eq_true] at hcond
      simp [relayLoop, hcond, ih]

theorem bvcLoop_sends_counts (clients : List (ClientId × Channel))
    (roles : List (ClientId × Role)) (n : Nat) :
    ((bvcLoop clients roles n).1).filter Sent.isRelay = [] := by
  induction clients with
  | nil => rfl
  | cons p rest ih =>
    obtain ⟨id, c⟩ := p
    by_cases hcond : (mapGet roles id == some Role.camera && c.isOpen) = true
    · by_cases hf : c.failSend = true
      · simp [bvcLoop, hcond, hf, Sent.isRelay]
      · rw [Bool.not_eq_true] at hf
        simp [bvcLoop, hcond, hf, Sent.isRelay, ih]
    · rw [Bool.not_eq_true] at hcond
      simp [bvcLoop, hcond, ih]

theorem bvcLoop_noFail (clients : List (ClientId × Channel))
    (roles : List (ClientId × Role)) (n : Nat)
    (h : ∀ p ∈ clients, p.2.failSend = false) :
    bvcLoop clients roles n = (cameraTargets clients roles n, false) := by
  induction clients with
  | nil => rfl
  | cons p rest ih =>
    obtain ⟨id, c⟩ := p
    have hc : c.failSend = false := h (id, c) (by simp)
    have hr := ih (fun q hq => h q (by simp [hq]))
    by_cases hcam : mapGet roles id = some Role.camera
    · by_cases hop : c.isOpen = true
      · simp [bvcLoop, cameraTargets, List.filterMap_cons, hcam, hop, hc, hr]
      · rw [Bool.not_eq_true] at hop
        simp [bvcLoop, cameraTargets, List.filterMap_cons, hcam, hop, hr]
    · simp [bvcLoop, cameraTargets, List.filterMap_cons, hcam, hr]

end CloudWatch

namespace CloudWatch

theorem onmessage_clients_eq (s : ServerState) (sender : ClientId)
    (parsed : Option Json) (raw : String) :
    (onmessage s sender parsed raw).1.clients = s.clients := by
  rcases parsed with _ | m
  · rfl
  · cases m <;> simp only [onmessage] <;> (repeat' split) <;> rfl

theorem onmessage_accepted (s : ServerState) (sender : ClientId) (m : Json)
    (raw : String)
    (htype : truthy (getField m "type") = true)
    (hoffer : isStr (getField m "type") "offer" = true → truthy (getField m "offer") = true)
    (hanswer : isStr (getField m "type") "answer" = true → truthy (getField m "answer") = true) :
    onmessage s sender (some m) raw
      = (⟨s.clients, classify s.clientRoles sender m⟩,
         (relayLoop s.clients sender raw).1
           ++ (if (relayLoop s.clients sender raw).2 = true then []
               else (broadcastViewerCount s.clients
                       (classify s.clientRoles sender m)).1)) := by
  cases m with
  | null => simp [getField, truthy] at htype
  | bool b => simp [getField, truthy] at htype
  | num n => simp [getField, truthy] at htype
  | str t => simp [getField, truthy] at htype
  | arr xs => simp [getField, truthy] at htype
  | obj fields =>
    have h1 : (isStr (getField (Json.obj fields) "type") "offer"
        && !(truthy (getField (Json.obj fields) "offer"))) = false := by
      cases ho : isStr (getField (Json.obj fields) "type") "offer"
      · simp
      · simp [hoffer ho]
    have h2 : (isStr (getField (Json.obj fields) "type") "answer"
        && !(truthy (getField (Json.obj fields) "answer"))) = false := by
      cases ha : isStr (getField (Json.obj fields) "type") "answer"
      · simp
      · simp [hanswer ha]
    simp only [onmessage, htype, Bool.not_true, Bool.false_eq_true, if_false, h1, h2]
    cases hr : (relayLoop s.clients sender raw).2 <;> simp [hr]

end CloudWatch

namespace CloudWatch

theorem relayTargets_filter_isRelay (clients : List (ClientId × Channel))
    (sender : ClientId) (raw : String) :
    (relayTargets clients sender raw).filter Sent.isRelay
      = relayTargets clients sender raw := by
  rw [List.filter_eq_self]
  intro x hx
  rw [relayTargets, List.mem_filterMap] at hx
  obtain ⟨p, _, he⟩ := hx
  split at he
  · cases he
    rfl
  · exact Option.noConfusion he

theorem isStr_eq_some (j : Option Json) (lit : String) (h : isStr j lit = true) :
    j = some (Json.str lit) := by
  rcases j with _ | v
  · simp [isStr] at h
  · cases v with
    | str t =>
      simp [isStr] at h
      rw [h]
    | null => simp [isStr] at h
    | bool b => simp [isStr] at h
    | num n => simp [isStr] at h
    | arr xs => simp [isStr] at h
    | obj fs => simp [isStr] at h

theorem onmessage_roles_classify (s : ServerState) (sender : ClientId)
    (fields : List (String × Json)) (raw : String)
    (htype : truthy (getField (Json.obj fields) "type") = true) :
    (onmessage s sender (some (Json.obj fields)) raw).1.clientRoles
      = classify s.clientRoles sender (Json.obj fields) := by
  simp only [onmessage, htype, Bool.not_true, Bool.false_eq_true, if_false]
  (repeat' split) <;> rfl

theorem relayLoop_abort (pre post : List (ClientId × Channel)) (fid : ClientId)
    (fc : Channel) (sender : ClientId) (raw : String)
    (hpre : ∀ p ∈ pre, p.2.failSend = false)
    (hfid : fid ≠ sender) (hopen : fc.isOpen = true) (hfail : fc.failSend = true) :
    relayLoop (pre ++ (fid, fc) :: post) sender raw
      = (relayTargets pre sender raw ++ [Sent.relay fid raw], true) := by
  induction pre with
  | nil => simp [relayLoop, relayTargets, hfid, hopen, hfail]
  | cons p rest ih =>
    obtain ⟨id, c⟩ := p
    have hc : c.failSend = false := hpre (id, c) (by simp)
    have hr := ih (fun q hq => hpre q (by simp [hq]))
    by_cases hid : id = sender
    · subst hid
      simp [relayLoop, relayTargets, List.filterMap_cons, hr]
    · by_cases hop : c.isOpen = true
      · simp [relayLoop, relayTargets, List.filterMap_cons, hid, hop, hc, hr]
      · rw [Bool.not_eq_true] at hop
        simp [relayLoop, relayTargets, List.filterMap_cons, hid, hop, hr]

theorem accepted_sends_filter (s : ServerState) (sender : ClientId) (m : Json)
    (raw : String)
    (hfail : ∀ p ∈ s.clients, p.2.failSend = false)
    (htype : truthy (getField m "type") = true)
    (hoffer : isStr (getField m "type") "offer" = true → truthy (getField m "offer") = true)
    (hanswer : isStr (getField m "type") "answer" = true → truthy (getField m "answer") = true) :
    ((onmessage s sender (some m) raw).2).filter Sent.isRelay
      = relayTargets s.clients sender raw := by
  rw [onmessage_accepted s sender m raw htype hoffer hanswer]
  rw [relayLoop_noFail s.clients sender raw hfail]
  simp [List.filter_append, relayTargets_filter_isRelay, broadcastViewerCount,
    bvcLoop_sends_counts]

end CloudWatch

namespace CloudWatch

/-- C1: an accepted signaling message (truthy `type`; for offer/answer a
truthy matching field) sent by registered channel `S` is relayed, with the
identical raw payload, to exactly the other registered channels whose
transport is open, in registry order: channels whose transport is not open
are silently skipped and `S` is never sent its own message (assuming no send
throws). -/
theorem accepted_message_relayed_to_exactly_others (s : ServerState)
    (sender : ClientId) (m : Json) (raw : String)
    (hfail : ∀ p ∈ s.clients, p.2.failSend = false)
    (htype : truthy (getField m "type") = true)
    (hoffer : isStr (getField m "type") "offer" = true → truthy (getField m "offer") = true)
    (hanswer : isStr (getField m "type") "answer" = true → truthy (getField m "answer") = true) :
    ((onmessage s sender (some m) raw).2).filter Sent.isRelay
      = relayTargets s.clients sender raw :=
  accepted_sends_filter s sender m raw hfail htype hoffer hanswer

/-- Witness for C1: two open peers and one closed peer; a valid offer from
channel 0 is relayed exactly to the open peer 1. -/
theorem accepted_message_relayed_to_exactly_others_witness :
    ((onmessage ⟨[(0, ⟨true, false⟩), (1, ⟨true, false⟩), (2, ⟨false, false⟩)],
          [(1, Role.camera)]⟩ 0
        (some (Json.obj [("type", Json.str "offer"), ("offer", Json.str "X")]))
        "P").2).filter Sent.isRelay
      = relayTargets [(0, ⟨true, false⟩), (1, ⟨true, false⟩), (2, ⟨false, false⟩)] 0 "P" :=
  accepted_message_relayed_to_exactly_others
    ⟨[(0, ⟨true, false⟩), (1, ⟨true, false⟩), (2, ⟨false, false⟩)], [(1, Role.camera)]⟩
    0 (Json.obj [("type", Json.str "offer"), ("offer", Json.str "X")]) "P"
    (by decide) (by decide) (by decide) (by decide)

/-- C2: a message that fails validation — unparseable payload, `null` payload,
missing/falsy `type`, offer with falsy `offer` field, or answer with falsy
`answer` field — is relayed to zero peers, surfaces no error (the handler
returns normally with no sends at all), and leaves the sender's channel entry
in the registry untouched. -/
theorem rejected_message_not_relayed (s : ServerState) (sender : ClientId)
    (parsed : Option Json) (raw : String)
    (hrej : accepts parsed = false) :
    (onmessage s sender parsed raw).2 = []
    ∧ (onmessage s sender parsed raw).1.clients = s.clients := by
  refine ⟨?_, onmessage_clients_eq s sender parsed raw⟩
  rcases parsed with _ | m
  · rfl
  · cases m with
    | null => rfl
    | bool b => simp [onmessage, getField, truthy]
    | num n => simp [onmessage, getField, truthy]
    | str t => simp [onmessage, getField, truthy]
    | arr xs => simp [onmessage, getField, truthy]
    | obj fields =>
      cases h1 : truthy (getField (Json.obj fields) "type")
      · simp [onmessage, h1]
      · cases h2 : (isStr (getField (Json.obj fields) "type") "offer"
            && !(truthy (getField (Json.obj fields) "offer")))
        · cases h3 : (isStr (getField (Json.obj fields) "type") "answer"
              && !(truthy (getField (Json.obj fields) "answer")))
          · simp [accepts, h1, h2, h3] at hrej
          · simp [onmessage, h1, h2, h3]
        · simp [onmessage, h1, h2]

/-- Witness for C2: an offer with no `offer` field is dropped with zero sends
and the sender stays registered. -/
theorem rejected_message_not_relayed_witness :
    (onmessage ⟨[(0, ⟨true, false⟩), (1, ⟨true, false⟩)], []⟩ 0
        (some (Json.obj [("type", Json.str "offer")])) "P").2 = []
    ∧ (onmessage ⟨[(0, ⟨true, false⟩), (1, ⟨true, false⟩)], []⟩ 0
        (some (Json.obj [("type", Json.str "offer")])) "P").1.clients
      = [(0, ⟨true, false⟩), (1, ⟨true, false⟩)] :=
  rejected_message_not_relayed ⟨[(0, ⟨true, false⟩), (1, ⟨true, false⟩)], []⟩ 0
    (some (Json.obj [("type", Json.str "offer")])) "P" (by decide)

/-- C5: a viewer-count push sends the count message carrying exactly the
number of role-table entries classified viewer at that moment, to exactly the
registered open channels classified camera — never to viewer-classified or
unclassified channels (assuming no send throws). -/
theorem viewer_count_pushed_to_open_cameras (clients : List (ClientId × Channel))
    (roles : List (ClientId × Role))
    (hfail : ∀ p ∈ clients, p.2.failSend = false) :
    broadcastViewerCount clients roles
      = (cameraTargets clients roles (viewerTally roles), false) :=
  bvcLoop_noFail clients roles (viewerTally roles) hfail

/-- Witness for C5: with one camera, one viewer and one unclassified channel
all open, the push goes only to the camera and carries count 1. -/
theorem viewer_count_pushed_to_open_cameras_witness :
    broadcastViewerCount [(0, ⟨true, false⟩), (1, ⟨true, false⟩), (2, ⟨true, false⟩)]
        [(0, Role.camera), (1, Role.viewer)]
      = (cameraTargets [(0, ⟨true, false⟩), (1, ⟨true, false⟩), (2, ⟨true, false⟩)]
          [(0, Role.camera), (1, Role.viewer)]
          (viewerTally [(0, Role.camera), (1, Role.viewer)]), false) :=
  viewer_count_pushed_to_open_cameras
    [(0, ⟨true, false⟩), (1, ⟨true, false⟩), (2, ⟨true, false⟩)]
    [(0, Role.camera), (1, Role.viewer)] (by decide)

/-- C7: a parsed message whose truthy `type` is neither `offer` nor `answer`
(for example `ice-candidate`) is relayed to all other open channels with no
structural validation of its remaining fields — in particular no hypothesis
on any `candidate` field is needed (assuming no send throws). -/
theorem other_types_relayed_without_validation (s : ServerState)
    (sender : ClientId) (m : Json) (raw : String)
    (hfail : ∀ p ∈ s.clients, p.2.failSend = false)
    (htype : truthy (getField m "type") = true)
    (hno : isStr (getField m "type") "offer" = false)
    (hna : isStr (getField m "type") "answer" = false) :
    ((onmessage s sender (some m) raw).2).filter Sent.isRelay
      = relayTargets s.clients sender raw :=
  accepted_sends_filter s sender m raw hfail htype
    (fun h => absurd h (by simp [hno]))
    (fun h => absurd h (by simp [hna]))

/-- Witness for C7: an `ice-candidate` message with no `candidate` field at
all is still relayed to the other open channel. -/
theorem other_types_relayed_without_validation_witness :
    ((onmessage ⟨[(0, ⟨true, false⟩), (1, ⟨true, false⟩)], []⟩ 0
        (some (Json.obj [("type", Json.str "ice-candidate")])) "P").2).filter Sent.isRelay
      = relayTargets [(0, ⟨true, false⟩), (1, ⟨true, false⟩)] 0 "P" :=
  other_types_relayed_without_validation ⟨[(0, ⟨true, false⟩), (1, ⟨true, false⟩)], []⟩
    0 (Json.obj [("type", Json.str "ice-candidate")]) "P"
    (by decide) (by decide) (by decide) (by decide)

/-- C9: an upgrade request to `/ws` whose `token` query parameter is absent or
differs from the configured secret receives status 401 with the JSON error
body, is never upgraded, and adds nothing to the registry or role table. -/
theorem unauthorized_upgrade_rejected (secret : String) (token : Option String)
    (s : ServerState) (h : token ≠ some secret) :
    handleWsUpgrade secret token s = (WsResult.rejected 401 unauthorizedBody, s) := by
  cases token with
  | none => rfl
  | some t =>
    have hb : (t == secret) = false := by
      rw [beq_eq_false_iff_ne]
      intro he
      exact h (by rw [he])
    simp [handleWsUpgrade, validateToken, hb]

/-- Witness for C9: a missing token is rejected with 401 and the state is
untouched. -/
theorem unauthorized_upgrade_rejected_witness :
    handleWsUpgrade "hunter2" none ⟨[(0, ⟨true, false⟩)], []⟩
      = (WsResult.rejected 401 unauthorizedBody, ⟨[(0, ⟨true, false⟩)], []⟩) :=
  unauthorized_upgrade_rejected "hunter2" none ⟨[(0, ⟨true, false⟩)], []⟩ (by decide)

/-- C10: the two deployment variants are relay-equivalent: on every registry
state and every inbound message both leave the registry unchanged, and the
minimal variant's sends are exactly the authenticated variant's sends
restricted to relays — the variants accept, reject and relay identically and
differ only in role-table and viewer-count side effects. -/
theorem variants_relay_equivalent (s : ServerState) (sender : ClientId)
    (parsed : Option Json) (raw : String) :
    (onmessageMin s.clients sender parsed raw).1 = s.clients
    ∧ (onmessage s sender parsed raw).1.clients = s.clients
    ∧ (onmessageMin s.clients sender parsed raw).2
        = ((onmessage s sender parsed raw).2).filter Sent.isRelay := by
  refine ⟨?_, onmessage_clients_eq s sender parsed raw, ?_⟩
  · rcases parsed with _ | m
    · rfl
    · cases m <;> simp only [onmessageMin] <;> (repeat' split) <;> rfl
  · rcases parsed with _ | m
    · rfl
    · cases m with
      | null => rfl
      | bool b => simp [onmessage, onmessageMin, getField, truthy]
      | num n => simp [onmessage, onmessageMin, getField, truthy]
      | str t => simp [onmessage, onmessageMin, getField, truthy]
      | arr xs => simp [onmessage, onmessageMin, getField, truthy]
      | obj fields =>
        cases h1 : truthy (getField (Json.obj fields) "type")
        · simp [onmessage, onmessageMin, h1]
        · cases h2 : (isStr (getField (Json.obj fields) "type") "offer"
              && !(truthy (getField (Json.obj fields) "offer")))
          · cases h3 : (isStr (getField (Json.obj fields) "type") "answer"
                && !(truthy (getField (Json.obj fields) "answer")))
            · cases hr : (relayLoop s.clients sender raw).2
              · simp [onmessage, onmessageMin, h1, h2, h3, hr, List.filter_append,
                  relayLoop_sends_relays, broadcastViewerCount, bvcLoop_sends_counts]
              · simp [onmessage, onmessageMin, h1, h2, h3, hr, relayLoop_sends_relays]
            · simp [onmessage, onmessageMin, h1, h2, h3]
          · simp [onmessage, onmessageMin, h1, h2]

end CloudWatch

namespace CloudWatch

/-- C8: unregistration is idempotent: a second close event for an identifier
already removed from the registry and role table leaves both tables exactly
as the first close left them, raises no error, and pushes the same viewer
count as the first removal did — no double decrement (assuming no send
throws). -/
theorem duplicate_close_is_noop (s : ServerState) (id : ClientId)
    (hfail : ∀ p ∈ s.clients, p.2.failSend = false) :
    onclose (onclose s id).1 id
      = ((onclose s id).1, (onclose s id).2.1, false)
    ∧ (onclose s id).2.2 = false := by
  have hsub : ∀ p ∈ mapDelete s.clients id, p.2.failSend = false :=
    fun p hp => hfail p (List.mem_of_mem_filter hp)
  have hb := bvcLoop_noFail (mapDelete s.clients id) (mapDelete s.clientRoles id)
    (viewerTally (mapDelete s.clientRoles id)) hsub
  have hc : mapDelete (mapDelete s.clients id) id = mapDelete s.clients id := by
    simp [mapDelete, List.filter_filter]
  have hr : mapDelete (mapDelete s.clientRoles id) id = mapDelete s.clientRoles id := by
    simp [mapDelete, List.filter_filter]
  constructor
  · simp only [onclose, hc, hr]
    simp [broadcastViewerCount, hb]
  · simp [onclose, broadcastViewerCount, hb]

/-- Witness for C8: closing viewer 1 out of a camera-plus-viewer registry,
then closing it again, changes nothing and repeats the same count push. -/
theorem duplicate_close_is_noop_witness :
    onclose (onclose ⟨[(0, ⟨true, false⟩), (1, ⟨true, false⟩)],
        [(0, Role.camera), (1, Role.viewer)]⟩ 1).1 1
      = ((onclose ⟨[(0, ⟨true, false⟩), (1, ⟨true, false⟩)],
          [(0, Role.camera), (1, Role.viewer)]⟩ 1).1,
         (onclose ⟨[(0, ⟨true, false⟩), (1, ⟨true, false⟩)],
          [(0, Role.camera), (1, Role.viewer)]⟩ 1).2.1, false)
    ∧ (onclose ⟨[(0, ⟨true, false⟩), (1, ⟨true, false⟩)],
        [(0, Role.camera), (1, Role.viewer)]⟩ 1).2.2 = false :=
  duplicate_close_is_noop
    ⟨[(0, ⟨true, false⟩), (1, ⟨true, false⟩)], [(0, Role.camera), (1, Role.viewer)]⟩
    1 (by decide)

/-- Counterexample to C3 as stated: channel 0 is classified viewer, then
sends a valid `answer`; its role-table entry changes to camera, so an
assigned role is not permanent. -/
theorem role_reassigned_by_later_answer :
    mapGet ([(0, Role.viewer)] : List (ClientId × Role)) 0 = some Role.viewer
    ∧ mapGet ((onmessage ⟨[(0, ⟨true, false⟩)], [(0, Role.viewer)]⟩ 0
        (some (Json.obj [("type", Json.str "answer"), ("answer", Json.str "Y")]))
        "p").1.clientRoles) 0 = some Role.camera
    ∧ Role.camera ≠ Role.viewer := by
  refine ⟨rfl, ?_, by decide⟩
  rfl

/-- C3 amended: role classification is last-writer-wins, not first-only:
every parsed message whose `type` is the string `answer` (re)sets the
sender's role to camera, and every `offer` (re)sets it to viewer, regardless
of any previously assigned role. -/
theorem role_follows_last_classifying_message (s : ServerState)
    (sender : ClientId) (m : Json) (raw : String) :
    (isStr (getField m "type") "answer" = true →
        mapGet (onmessage s sender (some m) raw).1.clientRoles sender
          = some Role.camera)
    ∧ (isStr (getField m "type") "offer" = true →
        mapGet (onmessage s sender (some m) raw).1.clientRoles sender
          = some Role.viewer) := by
  constructor
  · intro ha
    have hg := isStr_eq_some _ _ ha
    cases m with
    | null => simp [getField] at hg
    | bool b => simp [getField] at hg
    | num n => simp [getField] at hg
    | str t => simp [getField] at hg
    | arr xs => simp [getField] at hg
    | obj fields =>
      have htype : truthy (getField (Json.obj fields) "type") = true := by
        rw [hg]
        decide
      rw [onmessage_roles_classify s sender fields raw htype]
      have hcl : classify s.clientRoles sender (Json.obj fields)
          = mapSet s.clientRoles sender Role.camera := by
        simp [classify, ha]
      rw [hcl, mapGet_mapSet_self]
  · intro ho
    have hg := isStr_eq_some _ _ ho
    cases m with
    | null => simp [getField] at hg
    | bool b => simp [getField] at hg
    | num n => simp [getField] at hg
    | str t => simp [getField] at hg
    | arr xs => simp [getField] at hg
    | obj fields =>
      have htype : truthy (getField (Json.obj fields) "type") = true := by
        rw [hg]
        decide
      have hna : isStr (getField (Json.obj fields) "type") "answer" = false := by
        rw [hg]
        decide
      rw [onmessage_roles_classify s sender fields raw htype]
      have hcl : classify s.clientRoles sender (Json.obj fields)
          = mapSet s.clientRoles sender Role.viewer := by
        simp [classify, hna, ho]
      rw [hcl, mapGet_mapSet_self]

/-- Witness for C3 amended: a viewer-classified channel that sends an answer
is reclassified camera. -/
theorem role_follows_last_classifying_message_witness :
    mapGet ((onmessage ⟨[(0, ⟨true, false⟩)], [(0, Role.viewer)]⟩ 0
        (some (Json.obj [("type", Json.str "answer"), ("answer", Json.str "Y")]))
        "p").1.clientRoles) 0 = some Role.camera :=
  (role_follows_last_classifying_message ⟨[(0, ⟨true, false⟩)], [(0, Role.viewer)]⟩ 0
    (Json.obj [("type", Json.str "answer"), ("answer", Json.str "Y")]) "p").1 (by decide)

end CloudWatch

namespace CloudWatch

/-- Counterexample to C4 as stated: an `answer` with no `answer` field is
dropped (zero sends), yet the previously unclassified sender 0 is classified
camera — the rejected message did change the role table. -/
theorem role_set_by_rejected_answer :
    (onmessage ⟨[(0, ⟨true, false⟩)], []⟩ 0
        (some (Json.obj [("type", Json.str "answer")])) "p").2 = []
    ∧ mapGet ((onmessage ⟨[(0, ⟨true, false⟩)], []⟩ 0
        (some (Json.obj [("type", Json.str "answer")])) "p").1.clientRoles) 0
      = some Role.camera
    ∧ mapGet ([] : List (ClientId × Role)) 0 = none :=
  ⟨rfl, rfl, rfl⟩

/-- C4 amended: role classification runs before the offer/answer field
validation: a message dropped for an unparseable payload, a `null` payload or
a missing/falsy `type` leaves the role table unchanged, but an `offer`
rejected for a falsy `offer` field still classifies the sender viewer, and an
`answer` rejected for a falsy `answer` field still classifies it camera
(while relaying to zero peers). -/
theorem role_update_on_dropped_messages (s : ServerState) (sender : ClientId)
    (raw : String) :
    ((onmessage s sender none raw).1.clientRoles = s.clientRoles)
    ∧ ((onmessage s sender (some Json.null) raw).1.clientRoles = s.clientRoles)
    ∧ (∀ m, truthy (getField m "type") = false →
        (onmessage s sender (some m) raw).1.clientRoles = s.clientRoles)
    ∧ (∀ m, isStr (getField m "type") "offer" = true →
        truthy (getField m "offer") = false →
          (onmessage s sender (some m) raw).2 = []
          ∧ (onmessage s sender (some m) raw).1.clientRoles
              = mapSet s.clientRoles sender Role.viewer)
    ∧ (∀ m, isStr (getField m "type") "answer" = true →
        truthy (getField m "answer") = false →
          (onmessage s sender (some m) raw).2 = []
          ∧ (onmessage s sender (some m) raw).1.clientRoles
              = mapSet s.clientRoles sender Role.camera) := by
  refine ⟨rfl, rfl, ?_, ?_, ?_⟩
  · intro m h
    cases m with
    | null => rfl
    | bool b => rfl
    | num n => rfl
    | str t => rfl
    | arr xs => rfl
    | obj fields => simp [onmessage, h]
  · intro m ho hf
    have hg := isStr_eq_some _ _ ho
    cases m with
    | null => simp [getField] at hg
    | bool b => simp [getField] at hg
    | num n => simp [getField] at hg
    | str t => simp [getField] at hg
    | arr xs => simp [getField] at hg
    | obj fields =>
      have htype : truthy (getField (Json.obj fields) "type") = true := by
        rw [hg]
        decide
      have hna : isStr (getField (Json.obj fields) "type") "answer" = false := by
        rw [hg]
        decide
      have hcond : (isStr (getField (Json.obj fields) "type") "offer"
          && !(truthy (getField (Json.obj fields) "offer"))) = true := by
        rw [ho, hf]
        rfl
      constructor
      · simp [onmessage, htype, hcond]
      · rw [onmessage_roles_classify s sender fields raw htype]
        simp [classify, hna, ho]
  · intro m ha hf
    have hg := isStr_eq_some _ _ ha
    cases m with
    | null => simp [getField] at hg
    | bool b => simp [getField] at hg
    | num n => simp [getField] at hg
    | str t => simp [getField] at hg
    | arr xs => simp [getField] at hg
    | obj fields =>
      have htype : truthy (getField (Json.obj fields) "type") = true := by
        rw [hg]
        decide
      have hno : isStr (getField (Json.obj fields) "type") "offer" = false := by
        rw [hg]
        decide
      have hc1 : (isStr (getField (Json.obj fields) "type") "offer"
          && !(truthy (getField (Json.obj fields) "offer"))) = false := by
        rw [hno]
        rfl
      have hc2 : (isStr (getField (Json.obj fields) "type") "answer"
          && !(truthy (getField (Json.obj fields) "answer"))) = true := by
        rw [ha, hf]
        rfl
      constructor
      · simp [onmessage, htype, hc1, hc2]
      · rw [onmessage_roles_classify s sender fields raw htype]
        simp [classify, ha]

/-- Witness for C4 amended: concrete rejected answer from the unclassified
sender 0 — zero sends, role table gains the camera entry. -/
theorem role_update_on_dropped_messages_witness :
    (onmessage ⟨[(0, ⟨true, false⟩)], []⟩ 0
        (some (Json.obj [("type", Json.str "answer")])) "p").2 = []
    ∧ (onmessage ⟨[(0, ⟨true, false⟩)], []⟩ 0
        (some (Json.obj [("type", Json.str "answer")])) "p").1.clientRoles
      = mapSet [] 0 Role.camera :=
  (role_update_on_dropped_messages ⟨[(0, ⟨true, false⟩)], []⟩ 0 "p").2.2.2.2
    (Json.obj [("type", Json.str "answer")]) (by decide) (by decide)

/-- Counterexample to C6 as stated: channels 1 and 2 are both open peers of
sender 0; the send to channel 1 throws, and channel 2 — later in the
iteration — is never attempted: the failure does abort sending to the
remaining recipients. -/
theorem send_failure_skips_remaining_recipients :
    (onmessage ⟨[(0, ⟨true, false⟩), (1, ⟨true, true⟩), (2, ⟨true, false⟩)], []⟩ 0
        (some (Json.obj [("type", Json.str "ice-candidate")])) "p").2
      = [Sent.relay 1 "p"]
    ∧ Sent.relay 2 "p" ∉
        (onmessage ⟨[(0, ⟨true, false⟩), (1, ⟨true, true⟩), (2, ⟨true, false⟩)], []⟩ 0
          (some (Json.obj [("type", Json.str "ice-candidate")])) "p").2 := by
  refine ⟨rfl, ?_⟩
  decide

/-- C6 amended: a send error during relay of an accepted message is caught by
the handler-level try/catch, so it never propagates to the sender, but there
is no per-recipient catch: the error aborts the relay loop after the failing
send, the recipients later in the iteration are not attempted, and the
viewer-count broadcast is skipped. -/
theorem send_failure_aborts_relay_loop (s : ServerState) (sender : ClientId)
    (m : Json) (raw : String) (pre post : List (ClientId × Channel))
    (fid : ClientId) (fc : Channel)
    (hsplit : s.clients = pre ++ (fid, fc) :: post)
    (hpre : ∀ p ∈ pre, p.2.failSend = false)
    (hfid : fid ≠ sender) (hopen : fc.isOpen = true) (hfail : fc.failSend = true)
    (htype : truthy (getField m "type") = true)
    (hoffer : isStr (getField m "type") "offer" = true → truthy (getField m "offer") = true)
    (hanswer : isStr (getField m "type") "answer" = true → truthy (getField m "answer") = true) :
    (onmessage s sender (some m) raw).2
      = relayTargets pre sender raw ++ [Sent.relay fid raw] := by
  rw [onmessage_accepted s sender m raw htype hoffer hanswer]
  rw [hsplit, relayLoop_abort pre post fid fc sender raw hpre hfid hopen hfail]
  simp

/-- Witness for C6 amended: the failing send to channel 1 yields exactly the
single attempted relay; open channel 2 after it gets nothing. -/
theorem send_failure_aborts_relay_loop_witness :
    (onmessage ⟨[(0, ⟨true, false⟩), (1, ⟨true, true⟩), (2, ⟨true, false⟩)], []⟩ 0
        (some (Json.obj [("type", Json.str "ice-candidate")])) "p").2
      = relayTargets [(0, ⟨true, false⟩)] 0 "p" ++ [Sent.relay 1 "p"] :=
  send_failure_aborts_relay_loop
    ⟨[(0, ⟨true, false⟩), (1, ⟨true, true⟩), (2, ⟨true, false⟩)], []⟩ 0
    (Json.obj [("type", Json.str "ice-candidate")]) "p"
    [(0, ⟨true, false⟩)] [(2, ⟨true, false⟩)] 1 ⟨true, true⟩
    (by decide) (by decide) (by decide) (by decide) (by decide)
    (by decide) (by decide) (by decide)

end CloudWatch
